import Mathlib

/-!
# Risk-Constrained Arbitrage Decision Engine — shallow embedding

This file embeds the two algorithmic components of the ai-trading-system
repository in Lean 4 and proves properties of them:

* `RiskManager` (from `src/test/risk-management.test.js`): position sizing,
  trade validation, execution, closing, portfolio risk queries, emergency stop.
* `ArbitrageDetector` (from `src/test/arbitrage.test.js`): triangular
  arbitrage calculation, opportunity detection, price extraction.

JavaScript numbers are modelled as rationals (`ℚ`).  The JavaScript idiom
`x || d` (default on a falsy value: `undefined` or `0`) is modelled by
`jsOr : Option ℚ → ℚ → ℚ`.  The nondeterministic effects `Math.random()`
(fresh trade id) and `Date.now()` are modelled as explicit input parameters
(`id : String`, `now : Nat`).  Position status strings are kept exactly as
the source writes them: "open", "closed", "emergency_closed"; the spec's
symbolic states OPEN / CLOSED / EMERGENCY_CLOSED denote these values.
-/

/-- JavaScript `x || d`: substitutes the default `d` when `x` is absent
(`undefined`) or equal to `0` (both are falsy in JavaScript). -/
def jsOr : Option ℚ → ℚ → ℚ
  | none, d => d
  | some x, d => if x = 0 then d else x

/-- Constructor configuration of `RiskManager` (the values read in the
JavaScript constructor; `startingBalance` initialises `balance` and is not
itself stored on the instance). -/
structure RMConfig where
  startingBalance : ℚ
  maxLossPerTrade : ℚ
  maxDailyLoss : ℚ
  maxPositionSize : ℚ
  reserveFund : ℚ
deriving DecidableEq, Repr

/-- A position record: the object `{...trade, id, timestamp, status}` pushed
onto `openPositions` by `executeTrade`, possibly extended with the close
fields (`exitPrice`, `profit`, `closedAt`) by `closeTrade` /
`emergencyStop`. -/
structure Position where
  symbol : String := ""
  value : ℚ
  quantity : ℚ := 0
  entryPrice : ℚ := 0
  stopLoss : Option ℚ := none
  takeProfit : Option ℚ := none
  volatility : Option ℚ := none
  id : String := ""
  timestamp : Nat := 0
  status : String := "open"
  exitPrice : Option ℚ := none
  profit : Option ℚ := none
  closedAt : Option Nat := none
deriving DecidableEq, Repr

/-- A trade request object as passed to `validateTrade` / `executeTrade`.
Optional fields model properties a plain JavaScript object may omit. -/
structure Trade where
  symbol : String := ""
  value : ℚ
  quantity : ℚ := 0
  entryPrice : ℚ := 0
  stopLoss : Option ℚ := none
  takeProfit : Option ℚ := none
  volatility : Option ℚ := none
deriving DecidableEq, Repr

/-- The mutable fields of a `RiskManager` instance (`this.balance`,
`this.maxLossPerTrade`, `this.maxDailyLoss`, `this.maxPositionSize`,
`this.reserveFund`, `this.dailyLoss`, `this.openPositions`,
`this.tradeHistory`). -/
structure RiskManager where
  balance : ℚ
  maxLossPerTrade : ℚ
  maxDailyLoss : ℚ
  maxPositionSize : ℚ
  reserveFund : ℚ
  dailyLoss : ℚ
  openPositions : List Position
  tradeHistory : List Position
deriving DecidableEq, Repr

namespace RiskManager

/-- The `RiskManager` constructor with an explicit configuration. -/
def new (c : RMConfig) : RiskManager :=
  { balance := c.startingBalance
    maxLossPerTrade := c.maxLossPerTrade
    maxDailyLoss := c.maxDailyLoss
    maxPositionSize := c.maxPositionSize
    reserveFund := c.reserveFund
    dailyLoss := 0
    openPositions := []
    tradeHistory := [] }

/-- Opportunity object consumed by `calculatePositionSize` (only its
`stopLoss` property is read). -/
structure Opportunity where
  expectedProfit : Option ℚ := none
  stopLoss : Option ℚ := none
  confidence : Option ℚ := none
deriving DecidableEq, Repr

/-- Result object of `calculatePositionSize`. -/
structure SizingResult where
  size : ℚ
  reason : Option String := none
  maxRisk : Option ℚ := none
  availableCapital : Option ℚ := none
  allowed : Bool
deriving DecidableEq, Repr

/-- `RiskManager.calculatePositionSize`. -/
def calculatePositionSize (rm : RiskManager) (opportunity : Opportunity) :
    SizingResult :=
  if rm.dailyLoss ≥ rm.maxDailyLoss then
    { size := 0, reason := some "Daily loss limit reached", allowed := false }
  else
    let availableCapital := rm.balance * (1 - rm.reserveFund)
    let maxByRisk := rm.maxLossPerTrade / jsOr opportunity.stopLoss (1/100)
    let maxByCapital := availableCapital * rm.maxPositionSize
    let maxByBalance := availableCapital
    let positionSize := min (min maxByRisk maxByCapital) maxByBalance
    if positionSize < 1 then
      { size := 0, reason := some "Position too small", allowed := false }
    else
      { size := (Rat.floor positionSize : ℚ)
        maxRisk := some rm.maxLossPerTrade
        availableCapital := some availableCapital
        allowed := true }

/-- `RiskManager.calculateRiskScore`. -/
def calculateRiskScore (rm : RiskManager) (trade : Trade) : ℚ :=
  let positionRatio := trade.value / rm.balance
  let s1 := min 30 ( positionRatio * 150)
  let dailyLossRatio := rm.dailyLoss / rm.maxDailyLoss
  let s2 := min 30 ( dailyLossRatio * 30)
  let s3 := (rm.openPositions.length : ℚ) * 4
  let s4 := jsOr trade.volatility (1/10) * 200
  min 100 (s1 + s2 + s3 + s4)

/-- The condition of the stop-loss check in `validateTrade`:
`!trade.stopLoss || trade.stopLoss > 0.02` (a zero stop-loss is falsy). -/
def stopLossBad (trade : Trade) : Prop :=
  match trade.stopLoss with
  | none => True
  | some s => s = 0 ∨ s > 2/100

instance (trade : Trade) : Decidable (stopLossBad trade) := by
  unfold stopLossBad
  cases trade.stopLoss <;> infer_instance

/-- Result object of `validateTrade`. -/
structure ValidationResult where
  valid : Bool
  errors : List String
  riskScore : ℚ
deriving DecidableEq, Repr

/-- `RiskManager.validateTrade`: the five independent checks, each pushing
its error message, in source order. -/
def validateTrade (rm : RiskManager) (trade : Trade) : ValidationResult :=
  let e1 := if trade.value > rm.balance * rm.maxPositionSize then
    ["Position size exceeds maximum"] else []
  let e2 := if rm.dailyLoss ≥ rm.maxDailyLoss then
    ["Daily loss limit reached"] else []
  let e3 := if rm.balance - trade.value < rm.balance * rm.reserveFund then
    ["Would breach reserve fund"] else []
  let e4 := if stopLossBad trade then
    ["Stop loss not set or too high"] else []
  let e5 := if rm.openPositions.length ≥ 5 then
    ["Too many open positions"] else []
  let errors := e1 ++ e2 ++ e3 ++ e4 ++ e5
  { valid := errors.isEmpty
    errors := errors
    riskScore := rm.calculateRiskScore trade }

/-- Result object of `executeTrade`. -/
structure ExecutionResult where
  success : Bool
  errors : List String := []
  trade : Option Position := none
  newBalance : Option ℚ := none
  riskScore : Option ℚ := none
deriving DecidableEq, Repr

/-- The position object `{...trade, id, timestamp, status: 'open'}` built by
`executeTrade`. -/
def executedTrade (trade : Trade) (id : String) (now : Nat) : Position :=
  { symbol := trade.symbol
    value := trade.value
    quantity := trade.quantity
    entryPrice := trade.entryPrice
    stopLoss := trade.stopLoss
    takeProfit := trade.takeProfit
    volatility := trade.volatility
    id := id
    timestamp := now
    status := "open" }

/-- `RiskManager.executeTrade`.  `id` models the `Math.random()`-derived
trade id, `now` models `Date.now()`. -/
def executeTrade (rm : RiskManager) (trade : Trade) (id : String) (now : Nat) :
    ExecutionResult × RiskManager :=
  let validation := rm.validateTrade trade
  if validation.valid then
    let pos := executedTrade trade id now
    let rm' := { rm with
      openPositions := rm.openPositions ++ [pos]
      balance := rm.balance - trade.value }
    ({ success := true
       trade := some pos
       newBalance := some rm'.balance
       riskScore := some validation.riskScore }, rm')
  else
    ({ success := false, errors := validation.errors }, rm)

/-- Result object of `closeTrade`. -/
structure CloseResult where
  success : Bool
  error : Option String := none
  profit : Option ℚ := none
  newBalance : Option ℚ := none
  dailyLoss : Option ℚ := none
deriving DecidableEq, Repr

/-- `RiskManager.closeTrade`: `findIndex` + `splice` on the first position
whose id matches is modelled by `List.find?` + `List.eraseP`. -/
def closeTrade (rm : RiskManager) (tradeId : String) (exitPrice : ℚ)
    (now : Nat) : CloseResult × RiskManager :=
  match rm.openPositions.find? (fun t => t.id == tradeId) with
  | none => ({ success := false, error := some "Trade not found" }, rm)
  | some trade =>
    let profit := (exitPrice - trade.entryPrice) * trade.quantity
    let dailyLoss' :=
      if profit < 0 then rm.dailyLoss + |profit| else rm.dailyLoss
    let balance' := rm.balance + trade.value + profit
    let closed := { trade with
      exitPrice := some exitPrice
      profit := some profit
      status := "closed"
      closedAt := some now }
    ({ success := true
       profit := some profit
       newBalance := some balance'
       dailyLoss := some dailyLoss' },
     { rm with
        balance := balance'
        dailyLoss := dailyLoss'
        openPositions := rm.openPositions.eraseP (fun t => t.id == tradeId)
        tradeHistory := rm.tradeHistory ++ [closed] })

/-- `RiskManager.resetDailyLimits`. -/
def resetDailyLimits (rm : RiskManager) : RiskManager :=
  { rm with dailyLoss := 0 }

/-- Result object of `getPortfolioRisk`. -/
structure RiskSnapshot where
  totalExposure : ℚ
  exposureRatio : ℚ
  openPositions : Nat
  dailyLossUsed : ℚ
  reserveIntact : Bool
  riskLevel : String
deriving DecidableEq, Repr

/-- `RiskManager.calculateOverallRiskLevel`. -/
def calculateOverallRiskLevel ( exposureRatio : ℚ) : String :=
  if exposureRatio < 1/5 then "LOW"
  else if exposureRatio < 1/2 then "MEDIUM"
  else if exposureRatio < 4/5 then "HIGH"
  else "CRITICAL"

/-- `RiskManager.getPortfolioRisk`.  Note the source compares `this.balance`
with `this.balance * this.reserveFund` (current balance on both sides). -/
def getPortfolioRisk (rm : RiskManager) : RiskSnapshot :=
  let totalExposure := (rm.openPositions.map (fun p => p.value)).sum
  let exposureRatio := totalExposure / (rm.balance + totalExposure)
  { totalExposure := totalExposure
    exposureRatio := exposureRatio
    openPositions := rm.openPositions.length
    dailyLossUsed := rm.dailyLoss / rm.maxDailyLoss
    reserveIntact := decide (rm.balance ≥ rm.balance * rm.reserveFund)
    riskLevel := calculateOverallRiskLevel exposureRatio }

/-- Result object of `emergencyStop`. -/
structure EmergencyResult where
  closedPositions : Nat
  finalBalance : ℚ
  safeMode : Bool
deriving DecidableEq, Repr

/-- The record `{...position, status: 'emergency_closed', closedAt}` built
for each open position by `emergencyStop`. -/
def emergencyClose (now : Nat) (p : Position) : Position :=
  { p with status := "emergency_closed", closedAt := some now }

/-- `RiskManager.emergencyStop`: closes every open position, crediting
`value * 0.98` (2% emergency slippage) per position. -/
def emergencyStop (rm : RiskManager) (now : Nat) :
    EmergencyResult × RiskManager :=
  let closedTrades := rm.openPositions.map (emergencyClose now)
  let balance' :=
    rm.balance + (rm.openPositions.map (fun p => p.value * (98/100))).sum
  ({ closedPositions := closedTrades.length
     finalBalance := balance'
     safeMode := true },
   { rm with
      balance := balance'
      openPositions := []
      tradeHistory := rm.tradeHistory ++ closedTrades })

end RiskManager

/-- Configuration fields of `ArbitrageDetector` (`profitThreshold`,
`maxPositionSize`, `fees`). -/
structure ArbitrageDetector where
  profitThreshold : ℚ
  maxPositionSize : ℚ
  fees : ℚ
deriving DecidableEq, Repr

namespace ArbitrageDetector

/-- The destructured price object `{pair1, pair2, pair3}`. -/
structure TriPrices where
  pair1 : ℚ
  pair2 : ℚ
  pair3 : ℚ
deriving DecidableEq, Repr

/-- Result object of `calculateTriangularArbitrage`. -/
structure ArbitrageResult where
  crossRate : ℚ
  grossProfit : ℚ
  netProfit : ℚ
  isProfitable : Bool
  confidence : ℚ
deriving DecidableEq, Repr

/-- `ArbitrageDetector.calculateConfidence`. -/
def calculateConfidence (d : ArbitrageDetector) (profit : ℚ) : ℚ :=
  if profit ≤ 0 then 0
  else if profit ≥ 1/100 then 95/100
  else min (95/100) (profit * 100)

/-- `ArbitrageDetector.calculateTriangularArbitrage`. -/
def calculateTriangularArbitrage (d : ArbitrageDetector) (prices : TriPrices) :
    ArbitrageResult :=
  let crossRate := prices.pair1 * prices.pair2 * prices.pair3
  let arbitrageProfit := crossRate - 1
  let profitAfterFees := arbitrageProfit - d.fees * 3
  { crossRate := crossRate
    grossProfit := arbitrageProfit
    netProfit := profitAfterFees
    isProfitable := decide (profitAfterFees > d.profitThreshold)
    confidence := d.calculateConfidence profitAfterFees }

/-- A market-data snapshot: pair-string keyed rates, modelled as an
association list (`marketData[key]` is `List.lookup`). -/
abbrev MarketData := List (String × ℚ)

/-- `ArbitrageDetector.extractPrices`: each of the three fixed pairs
defaults to `1.0` when absent (or zero, which is falsy under `||`). -/
def extractPrices (marketData : MarketData) : TriPrices :=
  { pair1 := jsOr (List.lookup "USDC/USDT" marketData) 1
    pair2 := jsOr (List.lookup "USDT/DAI" marketData) 1
    pair3 := jsOr (List.lookup "DAI/USDC" marketData) 1 }

/-- `ArbitrageDetector.calculatePositionSize` (profit-scaled sizing). -/
def calculatePositionSize (d : ArbitrageDetector) (profitPercentage : ℚ) : ℤ :=
  let baseSize := d.maxPositionSize
  let riskAdjustment := min 1 (profitPercentage * 10)
  Rat.floor (baseSize * riskAdjustment)

/-- Result object of `detectOpportunity`. -/
structure OpportunityResult where
  type : String
  profit : ℚ
  confidence : ℚ
  action : String
  positionSize : Option ℤ := none
  reason : Option String := none
deriving DecidableEq, Repr

/-- `ArbitrageDetector.detectOpportunity`. -/
def detectOpportunity (d : ArbitrageDetector) (marketData : MarketData) :
    OpportunityResult :=
  let prices := extractPrices marketData
  let arbitrage := d.calculateTriangularArbitrage prices
  if arbitrage.isProfitable then
    { type := "triangular"
      profit := arbitrage.netProfit
      confidence := arbitrage.confidence
      action := "EXECUTE"
      positionSize := some (d.calculatePositionSize arbitrage.netProfit) }
  else
    { type := "triangular"
      profit := arbitrage.netProfit
      confidence := 0
      action := "MONITOR"
      reason := some "Below profit threshold" }

end ArbitrageDetector

/-!
## Reachability

The states a `RiskManager` instance can reach from its constructor through
the public operations of the class.
-/

/-- Portfolio states reachable from `RiskManager.new c` via the mutating
operations of the class (`executeTrade`, `closeTrade`, `resetDailyLimits`,
`emergencyStop`). -/
inductive Reachable (c : RMConfig) : RiskManager → Prop
  | init : Reachable c (RiskManager.new c)
  | exec (rm : RiskManager) (t : Trade) (id : String) (now : Nat) :
      Reachable c rm → Reachable c (rm.executeTrade t id now).2
  | close (rm : RiskManager) (tid : String) (price : ℚ) (now : Nat) :
      Reachable c rm → Reachable c (rm.closeTrade tid price now).2
  | reset (rm : RiskManager) :
      Reachable c rm → Reachable c rm.resetDailyLimits
  | estop (rm : RiskManager) (now : Nat) :
      Reachable c rm → Reachable c (rm.emergencyStop now).2

/-!
## Concrete instances

The configuration used throughout the repository's test suite
(`startingBalance 1000, maxLossPerTrade 10, maxDailyLoss 20,
maxPositionSize 0.2, reserveFund 0.2`), and concrete trades, portfolio
states and market snapshots used as evaluation points.
-/

/-- The test-suite configuration of `RiskManager`. -/
def cfg1000 : RMConfig :=
  { startingBalance := 1000
    maxLossPerTrade := 10
    maxDailyLoss := 20
    maxPositionSize := 1/5
    reserveFund := 1/5 }

/-- A freshly constructed manager with the test-suite configuration. -/
def rm0 : RiskManager := RiskManager.new cfg1000

/-- A fresh manager whose daily loss has hit the daily limit. -/
def rm20 : RiskManager := { rm0 with dailyLoss := 20 }

/-- A fresh manager whose balance has fallen to 100. -/
def rm100 : RiskManager := { rm0 with balance := 100 }

/-- An opportunity with a 1% stop loss. -/
def opp1 : RiskManager.Opportunity := { stopLoss := some (1/100) }

/-- A valid trade: value 100, 1% stop loss. -/
def trade100 : Trade :=
  { value := 100, quantity := 1, entryPrice := 100, stopLoss := some (1/100) }

/-- An oversized trade: value 300 on a balance of 1000 (limit 20%). -/
def trade300 : Trade := { value := 300, stopLoss := some (1/100) }

/-- A valid trade of value 100 whose committed entry exposes 790 of
potential loss (entryPrice 790, quantity 1). -/
def trade790 : Trade :=
  { value := 100, quantity := 1, entryPrice := 790, stopLoss := some (1/100) }

/-- A small valid trade of value 42. -/
def trade42 : Trade :=
  { value := 42, quantity := 1, entryPrice := 1, stopLoss := some (1/100) }

/-- A trade whose stop-loss field is present but equal to zero. -/
def tradeSL0 : Trade := { value := 100, stopLoss := some 0 }

/-- State after executing `trade790` on `rm0`. -/
def rmA : RiskManager := (rm0.executeTrade trade790 "t1" 0).2

/-- State after closing position "t1" of `rmA` at exit price 0: balance
210, daily loss 790. -/
def rmB : RiskManager := (rmA.closeTrade "t1" 0 0).2

/-- State `rmB` after `resetDailyLimits`: balance 210, daily loss 0. -/
def rmC : RiskManager := rmB.resetDailyLimits

/-- A manager holding one open position (for emergency-stop evaluation). -/
def rmP : RiskManager :=
  { rm0 with openPositions := [RiskManager.executedTrade trade100 "p1" 0] }

/-- The test-suite detector configuration
(`profitThreshold 0.001, maxPositionSize 200, fees 0.001`). -/
def dStd : ArbitrageDetector :=
  { profitThreshold := 1/1000, maxPositionSize := 200, fees := 1/1000 }

/-- Prices whose net profit equals the threshold exactly:
`1.004 · 1 · 1 − 1 − 0.003 = 0.001`. -/
def pricesEq : ArbitrageDetector.TriPrices :=
  { pair1 := 251/250, pair2 := 1, pair3 := 1 }

/-- Prices whose net profit is strictly above the threshold:
`1.005 · 1 · 1 − 1 − 0.003 = 0.002`. -/
def pricesHi : ArbitrageDetector.TriPrices :=
  { pair1 := 201/200, pair2 := 1, pair3 := 1 }

/-- Prices at exact parity through the path `2 · (1/2) · 1 = 1`. -/
def pricesPar : ArbitrageDetector.TriPrices :=
  { pair1 := 2, pair2 := 1/2, pair3 := 1 }

/-- A snapshot carrying an explicit zero (non-positive) rate. -/
def mdZero : ArbitrageDetector.MarketData := [("USDC/USDT", (0 : ℚ))]

/-- A snapshot carrying negative rates for two pairs. -/
def mdNeg : ArbitrageDetector.MarketData :=
  [("USDC/USDT", (-2 : ℚ)), ("USDT/DAI", (-2 : ℚ))]

/-!
## Theorems
-/

open RiskManager ArbitrageDetector

/-- `validateTrade` accepts exactly when each of the five checks passes. -/
lemma validateTrade_valid_iff (rm : RiskManager) (t : Trade) :
    (rm.validateTrade t).valid = true ↔
      (¬ t.value > rm.balance * rm.maxPositionSize ∧
       ¬ rm.dailyLoss ≥ rm.maxDailyLoss ∧
       ¬ rm.balance - t.value < rm.balance * rm.reserveFund ∧
       ¬ stopLossBad t ∧
       ¬ rm.openPositions.length ≥ 5) := by
  unfold validateTrade
  by_cases h1 : t.value > rm.balance * rm.maxPositionSize <;>
  by_cases h2 : rm.dailyLoss ≥ rm.maxDailyLoss <;>
  by_cases h3 : rm.balance - t.value < rm.balance * rm.reserveFund <;>
  by_cases h4 : stopLossBad t <;>
  by_cases h5 : rm.openPositions.length ≥ 5 <;>
  simp [h1, h2, h3, h4, h5]

/-- C1 (amended): once `dailyLoss ≥ maxDailyLoss`, `calculatePositionSize`
returns `allowed = false`, `size = 0` and reason "Daily loss limit reached"
(capitalised as in the source) for every opportunity; no operation of the
class lowers `dailyLoss` or changes `maxDailyLoss` (so the gate persists),
and only an explicit `resetDailyLimits` sets `dailyLoss` back to 0. -/
theorem dailyLoss_gate (rm : RiskManager) (o : Opportunity) (t : Trade)
    (tid id : String) (price : ℚ) (now : Nat)
    (h : rm.dailyLoss ≥ rm.maxDailyLoss) :
    rm.calculatePositionSize o =
      { size := 0, reason := some "Daily loss limit reached", allowed := false } ∧
    ((rm.executeTrade t id now).2.dailyLoss = rm.dailyLoss ∧
     (rm.executeTrade t id now).2.maxDailyLoss = rm.maxDailyLoss) ∧
    ((rm.closeTrade tid price now).2.dailyLoss ≥ rm.dailyLoss ∧
     (rm.closeTrade tid price now).2.maxDailyLoss = rm.maxDailyLoss) ∧
    ((rm.emergencyStop now).2.dailyLoss = rm.dailyLoss ∧
     (rm.emergencyStop now).2.maxDailyLoss = rm.maxDailyLoss) ∧
    rm.resetDailyLimits.dailyLoss = 0 := by
  refine ⟨?_, ?_, ?_, ⟨rfl, rfl⟩, rfl⟩
  · unfold RiskManager.calculatePositionSize
    rw [if_pos h]
  · unfold executeTrade
    rcases Bool.eq_false_or_eq_true (rm.validateTrade t).valid with hv | hv <;>
      simp [hv]
  · unfold closeTrade
    rcases hf : rm.openPositions.find? (fun p => p.id == tid) with _ | p <;>
      simp [hf]
    split <;> simp [abs_nonneg]

/-- Witness for `dailyLoss_gate` at the concrete state `rm20`
(`dailyLoss = 20 = maxDailyLoss`). -/
theorem dailyLoss_gate_witness :
    rm20.dailyLoss ≥ rm20.maxDailyLoss ∧
    rm20.calculatePositionSize opp1 =
      { size := 0, reason := some "Daily loss limit reached", allowed := false } ∧
    rm20.resetDailyLimits.dailyLoss = 0 := by
  have h : rm20.dailyLoss ≥ rm20.maxDailyLoss := by
    norm_num [rm20, rm0, RiskManager.new, cfg1000]
  have H := dailyLoss_gate rm20 opp1 trade100 "x" "y" 0 0 h
  exact ⟨h, H.1, H.2.2.2.2⟩

/-- C1 counterexample: at the daily-loss limit the source rejects with the
capitalised reason string "Daily loss limit reached", not the claim's
"daily loss limit reached". -/
theorem dailyLoss_gate_reason_cex :
    (rm20.calculatePositionSize opp1).allowed = false ∧
    (rm20.calculatePositionSize opp1).reason ≠ some "daily loss limit reached" ∧
    (rm20.calculatePositionSize opp1).reason = some "Daily loss limit reached" := by
  norm_num [rm20, rm0, RiskManager.new, cfg1000, RiskManager.calculatePositionSize]
  decide

/-- C2: `executeTrade` succeeds exactly when `validateTrade` accepts; on
failure it returns the same error list and leaves the state untouched
(atomic all-or-nothing); on success it deducts exactly `trade.value` from
the balance and appends exactly one new position with status "open"
(the spec's OPEN), touching neither `dailyLoss` nor `tradeHistory`. -/
theorem executeTrade_atomic (rm : RiskManager) (t : Trade) (id : String)
    (now : Nat) :
    ((rm.executeTrade t id now).1.success = true ↔
      (rm.validateTrade t).valid = true) ∧
    ((rm.executeTrade t id now).1.success = false →
      (rm.executeTrade t id now).1.errors = (rm.validateTrade t).errors ∧
      (rm.executeTrade t id now).2 = rm) ∧
    ((rm.executeTrade t id now).1.success = true →
      (rm.executeTrade t id now).2.balance = rm.balance - t.value ∧
      (rm.executeTrade t id now).2.openPositions
        = rm.openPositions ++ [executedTrade t id now] ∧
      (executedTrade t id now).status = "open" ∧
      (rm.executeTrade t id now).2.dailyLoss = rm.dailyLoss ∧
      (rm.executeTrade t id now).2.tradeHistory = rm.tradeHistory) := by
  unfold RiskManager.executeTrade
  rcases Bool.eq_false_or_eq_true (rm.validateTrade t).valid with hv | hv <;>
    simp [hv, executedTrade]

/-- Witness for `executeTrade_atomic`: the oversized `trade300` is refused
without mutation, the valid `trade100` is executed and deducts 100. -/
theorem executeTrade_atomic_witness :
    (rm0.executeTrade trade300 "a" 0).1.success = false ∧
    (rm0.executeTrade trade300 "a" 0).2 = rm0 ∧
    (rm0.executeTrade trade100 "b" 0).1.success = true ∧
    (rm0.executeTrade trade100 "b" 0).2.balance = 900 := by
  have hv1 : (rm0.validateTrade trade300).valid = false := by
    norm_num [rm0, RiskManager.new, cfg1000, RiskManager.validateTrade,
      RiskManager.stopLossBad, RiskManager.calculateRiskScore, jsOr, trade300]
  have hv2 : (rm0.validateTrade trade100).valid = true := by
    norm_num [rm0, RiskManager.new, cfg1000, RiskManager.validateTrade,
      RiskManager.stopLossBad, RiskManager.calculateRiskScore, jsOr, trade100]
  have T1 := executeTrade_atomic rm0 trade300 "a" 0
  have T2 := executeTrade_atomic rm0 trade100 "b" 0
  have hs1 : (rm0.executeTrade trade300 "a" 0).1.success = false := by
    simpa [hv1] using T1.1
  have hs2 : (rm0.executeTrade trade100 "b" 0).1.success = true := T2.1.mpr hv2
  refine ⟨hs1, (T1.2.1 hs1).2, hs2, ?_⟩
  rw [(T2.2.2 hs2).1]
  norm_num [rm0, RiskManager.new, cfg1000, trade100]

/-- C3 counterexample: from the test-suite configuration, execute a trade of
value 100 with 790 at risk, close it at exit price 0 (balance falls to
210), reset the daily limit; the resulting state is reachable, accepts the
trade `trade42`, and the post-trade balance 168 is strictly below
`startingBalance × reserveFund = 200`. -/
theorem reserve_startingBalance_cex :
    Reachable cfg1000 rmC ∧
    (rmC.executeTrade trade42 "t2" 0).1.success = true ∧
    (rmC.executeTrade trade42 "t2" 0).2.balance
      < cfg1000.startingBalance * cfg1000.reserveFund := by
  refine ⟨?_, ?_, ?_⟩
  · exact Reachable.reset rmB
      (Reachable.close rmA "t1" 0 0
        (Reachable.exec rm0 trade790 "t1" 0 Reachable.init))
  · norm_num [rmC, rmB, rmA, rm0, RiskManager.new, cfg1000,
      RiskManager.executeTrade, RiskManager.validateTrade,
      RiskManager.closeTrade, RiskManager.executedTrade,
      RiskManager.resetDailyLimits, RiskManager.calculateRiskScore,
      RiskManager.stopLossBad, jsOr, trade790, trade42]
  · norm_num [rmC, rmB, rmA, rm0, RiskManager.new, cfg1000,
      RiskManager.executeTrade, RiskManager.validateTrade,
      RiskManager.closeTrade, RiskManager.executedTrade,
      RiskManager.resetDailyLimits, RiskManager.calculateRiskScore,
      RiskManager.stopLossBad, jsOr, trade790, trade42]

/-- C3 (amended): every trade accepted by `executeTrade` keeps the
post-trade balance at or above the reserve computed from the **current**
pre-trade balance: `balance_after ≥ balance_before × reserveFund`.  (The
source checks the reserve against `this.balance` at validation time, not
against the starting capital.) -/
theorem reserve_current_balance (rm : RiskManager) (t : Trade) (id : String)
    (now : Nat) (h : (rm.executeTrade t id now).1.success = true) :
    (rm.executeTrade t id now).2.balance ≥ rm.balance * rm.reserveFund := by
  have hv : (rm.validateTrade t).valid = true := by
    by_contra hv
    rw [Bool.not_eq_true] at hv
    unfold RiskManager.executeTrade at h
    simp [hv] at h
  have hres : ¬ rm.balance - t.value < rm.balance * rm.reserveFund :=
    ((validateTrade_valid_iff rm t).mp hv).2.2.1
  have hbal : (rm.executeTrade t id now).2.balance = rm.balance - t.value := by
    unfold RiskManager.executeTrade
    simp [hv]
  rw [hbal]
  linarith [not_lt.mp hres]

/-- Witness for `reserve_current_balance`: `trade100` on a fresh manager is
accepted and leaves balance 900 ≥ 200. -/
theorem reserve_current_balance_witness :
    (rm0.executeTrade trade100 "w" 0).1.success = true ∧
    (rm0.executeTrade trade100 "w" 0).2.balance ≥ rm0.balance * rm0.reserveFund := by
  have hs : (rm0.executeTrade trade100 "w" 0).1.success = true := by
    norm_num [rm0, RiskManager.new, cfg1000, RiskManager.executeTrade,
      RiskManager.validateTrade, RiskManager.stopLossBad,
      RiskManager.calculateRiskScore, jsOr, trade100]
  exact ⟨hs, reserve_current_balance rm0 trade100 "w" 0 hs⟩

/-- C4: after `emergencyStop` the open-position list is empty; every
formerly open position appears in `tradeHistory` with status
"emergency_closed" (the spec's EMERGENCY_CLOSED) and unchanged committed
value; the returned count equals the number of previously open positions
and the balance is credited `value × 0.98` for each position — a total,
never partial, liquidation. -/
theorem emergencyStop_complete (rm : RiskManager) (now : Nat) :
    (rm.emergencyStop now).2.openPositions = [] ∧
    (rm.emergencyStop now).1.closedPositions = rm.openPositions.length ∧
    (rm.emergencyStop now).1.safeMode = true ∧
    (rm.emergencyStop now).2.tradeHistory
      = rm.tradeHistory ++ rm.openPositions.map (emergencyClose now) ∧
    (∀ p ∈ rm.openPositions,
      emergencyClose now p ∈ (rm.emergencyStop now).2.tradeHistory ∧
      (emergencyClose now p).status = "emergency_closed" ∧
      (emergencyClose now p).value = p.value) ∧
    (rm.emergencyStop now).1.finalBalance
      = rm.balance + (rm.openPositions.map (fun p => p.value * (98/100))).sum ∧
    (rm.emergencyStop now).2.balance = (rm.emergencyStop now).1.finalBalance := by
  refine ⟨rfl, ?_, rfl, rfl, ?_, rfl, rfl⟩
  · simp [RiskManager.emergencyStop]
  · intro p hp
    refine ⟨?_, rfl, rfl⟩
    unfold RiskManager.emergencyStop
    exact List.mem_append_right _ (List.mem_map_of_mem _ hp)

/-- Witness for `emergencyStop_complete` at the one-position state `rmP`. -/
theorem emergencyStop_complete_witness :
    emergencyClose 5 (executedTrade trade100 "p1" 0)
      ∈ (rmP.emergencyStop 5).2.tradeHistory ∧
    (rmP.emergencyStop 5).2.openPositions = [] ∧
    (rmP.emergencyStop 5).1.closedPositions = 1 := by
  have H := emergencyStop_complete rmP 5
  have hp : executedTrade trade100 "p1" 0 ∈ rmP.openPositions := by
    simp [rmP]
  refine ⟨(H.2.2.2.2.1 _ hp).1, H.1, ?_⟩
  rw [H.2.1]
  simp [rmP]

/-- C5: the actionability comparison is strict: a net profit exactly equal
to `profitThreshold` is not profitable, and any net profit strictly above
the threshold is. -/
theorem threshold_strict (d : ArbitrageDetector) (prices : TriPrices) :
    ((d.calculateTriangularArbitrage prices).netProfit = d.profitThreshold →
      (d.calculateTriangularArbitrage prices).isProfitable = false) ∧
    (d.profitThreshold < (d.calculateTriangularArbitrage prices).netProfit →
      (d.calculateTriangularArbitrage prices).isProfitable = true) := by
  unfold ArbitrageDetector.calculateTriangularArbitrage
  dsimp only
  constructor
  · intro h
    rw [h]
    simp
  · intro h
    exact decide_eq_true h

/-- Witness for `threshold_strict` at net profit exactly 0.001 (the
threshold, via `pricesEq`) and at 0.002 (via `pricesHi`). -/
theorem threshold_strict_witness :
    (dStd.calculateTriangularArbitrage pricesEq).netProfit = dStd.profitThreshold ∧
    (dStd.calculateTriangularArbitrage pricesEq).isProfitable = false ∧
    dStd.profitThreshold < (dStd.calculateTriangularArbitrage pricesHi).netProfit ∧
    (dStd.calculateTriangularArbitrage pricesHi).isProfitable = true := by
  have h1 : (dStd.calculateTriangularArbitrage pricesEq).netProfit
      = dStd.profitThreshold := by
    norm_num [dStd, pricesEq, ArbitrageDetector.calculateTriangularArbitrage]
  have h2 : dStd.profitThreshold
      < (dStd.calculateTriangularArbitrage pricesHi).netProfit := by
    norm_num [dStd, pricesHi, ArbitrageDetector.calculateTriangularArbitrage]
  exact ⟨h1, (threshold_strict dStd pricesEq).1 h1, h2,
    (threshold_strict dStd pricesHi).2 h2⟩

/-- C6: when the three rates multiply to exactly 1, the net profit is
exactly `-(fees × 3)` (pure fee cost); for a non-negative fee it is never
positive, and with a non-negative profit threshold the result is never
profitable — fees alone never produce a false-positive signal. -/
theorem parity_pure_fee_cost (d : ArbitrageDetector) (prices : TriPrices)
    (h : prices.pair1 * prices.pair2 * prices.pair3 = 1) :
    (d.calculateTriangularArbitrage prices).netProfit = -(d.fees * 3) ∧
    (0 ≤ d.fees → (d.calculateTriangularArbitrage prices).netProfit ≤ 0) ∧
    (0 ≤ d.fees → 0 ≤ d.profitThreshold →
      (d.calculateTriangularArbitrage prices).isProfitable = false) := by
  have hnet : (d.calculateTriangularArbitrage prices).netProfit = -(d.fees * 3) := by
    unfold ArbitrageDetector.calculateTriangularArbitrage
    dsimp only
    rw [h]
    ring
  refine ⟨hnet, fun hf => ?_, fun hf hθ => ?_⟩
  · rw [hnet]
    linarith
  · have hle : ¬ (d.profitThreshold
        < (d.calculateTriangularArbitrage prices).netProfit) := by
      rw [hnet]
      linarith
    unfold ArbitrageDetector.calculateTriangularArbitrage at hle ⊢
    dsimp only at hle ⊢
    exact decide_eq_false hle

/-- Witness for `parity_pure_fee_cost` at the parity prices `2, 1/2, 1`
with the test-suite fee 0.001. -/
theorem parity_pure_fee_cost_witness :
    pricesPar.pair1 * pricesPar.pair2 * pricesPar.pair3 = 1 ∧
    (dStd.calculateTriangularArbitrage pricesPar).netProfit = -(3/1000) ∧
    (dStd.calculateTriangularArbitrage pricesPar).isProfitable = false := by
  have hp : pricesPar.pair1 * pricesPar.pair2 * pricesPar.pair3 = 1 := by
    norm_num [pricesPar]
  have H := parity_pure_fee_cost dStd pricesPar hp
  refine ⟨hp, ?_, H.2.2 (by norm_num [dStd]) (by norm_num [dStd])⟩
  rw [H.1]
  norm_num [dStd]

/-- C7 (code bug): `getPortfolioRisk` computes `reserveIntact` as
`balance ≥ balance × reserveFund` — the current balance on both sides —
so it reports `true` even when the balance (here 100) is far below
`startingBalance × reserveFraction = 200`, where the claim (and the spec)
say it must be `false`. -/
theorem reserveIntact_vacuous :
    rm100.balance < cfg1000.startingBalance * cfg1000.reserveFund ∧
    (rm100.getPortfolioRisk).reserveIntact = true := by
  constructor
  · norm_num [rm100, rm0, RiskManager.new, cfg1000]
  · norm_num [rm100, rm0, RiskManager.new, cfg1000,
      RiskManager.getPortfolioRisk]

/-- C8 counterexample: a snapshot with an explicit zero (non-positive) rate
is not rejected — it is silently normalised to the neutral `1.0` exactly
like a missing pair and detection returns a normal MONITOR result; a
snapshot with negative rates even yields an EXECUTE opportunity. -/
theorem detect_rejects_cex :
    extractPrices mdZero = { pair1 := 1, pair2 := 1, pair3 := 1 } ∧
    (dStd.detectOpportunity mdZero).action = "MONITOR" ∧
    (dStd.detectOpportunity mdZero).reason = some "Below profit threshold" ∧
    (dStd.detectOpportunity mdNeg).action = "EXECUTE" := by
  have z1 : List.lookup "USDC/USDT" mdZero = some 0 := rfl
  have z2 : List.lookup "USDT/DAI" mdZero = none := rfl
  have z3 : List.lookup "DAI/USDC" mdZero = none := rfl
  have n1 : List.lookup "USDC/USDT" mdNeg = some (-2) := rfl
  have n2 : List.lookup "USDT/DAI" mdNeg = some (-2) := rfl
  have n3 : List.lookup "DAI/USDC" mdNeg = none := rfl
  refine ⟨?_, ?_, ?_, ?_⟩ <;>
    norm_num [dStd, ArbitrageDetector.detectOpportunity,
      ArbitrageDetector.extractPrices,
      ArbitrageDetector.calculateTriangularArbitrage,
      ArbitrageDetector.calculateConfidence,
      ArbitrageDetector.calculatePositionSize, jsOr,
      z1, z2, z3, n1, n2, n3]

/-- C8 (amended): the detector never fails on a snapshot.  A missing pair
and an explicit zero rate are both replaced by the neutral `1.0` (zero is
falsy under `||`), any other rate — including a negative one — is used
as-is, and `detectOpportunity` always returns a normal EXECUTE or MONITOR
result. -/
theorem detect_tolerates_nonpositive (d : ArbitrageDetector)
    (md : MarketData) :
    (List.lookup "USDC/USDT" md = none → (extractPrices md).pair1 = 1) ∧
    (List.lookup "USDC/USDT" md = some 0 → (extractPrices md).pair1 = 1) ∧
    (∀ r : ℚ, List.lookup "USDC/USDT" md = some r → r ≠ 0 →
      (extractPrices md).pair1 = r) ∧
    (List.lookup "USDT/DAI" md = none → (extractPrices md).pair2 = 1) ∧
    (List.lookup "USDT/DAI" md = some 0 → (extractPrices md).pair2 = 1) ∧
    (∀ r : ℚ, List.lookup "USDT/DAI" md = some r → r ≠ 0 →
      (extractPrices md).pair2 = r) ∧
    (List.lookup "DAI/USDC" md = none → (extractPrices md).pair3 = 1) ∧
    (List.lookup "DAI/USDC" md = some 0 → (extractPrices md).pair3 = 1) ∧
    (∀ r : ℚ, List.lookup "DAI/USDC" md = some r → r ≠ 0 →
      (extractPrices md).pair3 = r) ∧
    ((d.detectOpportunity md).action = "EXECUTE" ∨
      (d.detectOpportunity md).action = "MONITOR") := by
  refine ⟨fun h => ?_, fun h => ?_, fun r h hr => ?_,
          fun h => ?_, fun h => ?_, fun r h hr => ?_,
          fun h => ?_, fun h => ?_, fun r h hr => ?_, ?_⟩
  · simp [ArbitrageDetector.extractPrices, jsOr, h]
  · simp [ArbitrageDetector.extractPrices, jsOr, h]
  · simp [ArbitrageDetector.extractPrices, jsOr, h, hr]
  · simp [ArbitrageDetector.extractPrices, jsOr, h]
  · simp [ArbitrageDetector.extractPrices, jsOr, h]
  · simp [ArbitrageDetector.extractPrices, jsOr, h, hr]
  · simp [ArbitrageDetector.extractPrices, jsOr, h]
  · simp [ArbitrageDetector.extractPrices, jsOr, h]
  · simp [ArbitrageDetector.extractPrices, jsOr, h, hr]
  · unfold ArbitrageDetector.detectOpportunity
    dsimp only
    split
    · exact Or.inl rfl
    · exact Or.inr rfl

/-- Witness for `detect_tolerates_nonpositive` at the zero-rate snapshot
`mdZero`. -/
theorem detect_tolerates_witness :
    (extractPrices mdZero).pair1 = 1 ∧
    (extractPrices mdZero).pair2 = 1 ∧
    ((dStd.detectOpportunity mdZero).action = "EXECUTE" ∨
      (dStd.detectOpportunity mdZero).action = "MONITOR") := by
  obtain ⟨h1n, h1z, h1s, h2n, h2z, h2s, h3n, h3z, h3s, hact⟩ :=
    detect_tolerates_nonpositive dStd mdZero
  exact ⟨h1z rfl, h2n rfl, hact⟩

/-- C9: `validateTrade` accumulates an error entry for each violated check
(all five, not just the first), `valid` holds exactly when the error list
is empty — equivalently exactly when all five checks pass — and the
returned `riskScore` is the informational `calculateRiskScore` value,
playing no part in validity. -/
theorem validateTrade_accumulates (rm : RiskManager) (t : Trade) :
    ((rm.validateTrade t).valid = true ↔ (rm.validateTrade t).errors = []) ∧
    ((rm.validateTrade t).valid = true ↔
      (¬ t.value > rm.balance * rm.maxPositionSize ∧
       ¬ rm.dailyLoss ≥ rm.maxDailyLoss ∧
       ¬ rm.balance - t.value < rm.balance * rm.reserveFund ∧
       ¬ stopLossBad t ∧
       ¬ rm.openPositions.length ≥ 5)) ∧
    ("Position size exceeds maximum" ∈ (rm.validateTrade t).errors ↔
      t.value > rm.balance * rm.maxPositionSize) ∧
    ("Daily loss limit reached" ∈ (rm.validateTrade t).errors ↔
      rm.dailyLoss ≥ rm.maxDailyLoss) ∧
    ("Would breach reserve fund" ∈ (rm.validateTrade t).errors ↔
      rm.balance - t.value < rm.balance * rm.reserveFund) ∧
    ("Stop loss not set or too high" ∈ (rm.validateTrade t).errors ↔
      stopLossBad t) ∧
    ("Too many open positions" ∈ (rm.validateTrade t).errors ↔
      rm.openPositions.length ≥ 5) ∧
    (rm.validateTrade t).riskScore = rm.calculateRiskScore t := by
  refine ⟨?_, validateTrade_valid_iff rm t, ?_, ?_, ?_, ?_, ?_, rfl⟩ <;>
  unfold RiskManager.validateTrade <;>
  by_cases h1 : t.value > rm.balance * rm.maxPositionSize <;>
  by_cases h2 : rm.dailyLoss ≥ rm.maxDailyLoss <;>
  by_cases h3 : rm.balance - t.value < rm.balance * rm.reserveFund <;>
  by_cases h4 : stopLossBad t <;>
  by_cases h5 : rm.openPositions.length ≥ 5 <;>
  simp [h1, h2, h3, h4, h5]

/-- C10: a trade whose stop-loss field is present but exactly 0 is treated
as unset by the JavaScript falsy check and is rejected with
"Stop loss not set or too high", even though 0 does not exceed the 0.02
maximum. -/
theorem stopLoss_zero_rejected (rm : RiskManager) (t : Trade)
    (h : t.stopLoss = some 0) :
    "Stop loss not set or too high" ∈ (rm.validateTrade t).errors ∧
    (rm.validateTrade t).valid = false := by
  have hbad : stopLossBad t := by
    unfold RiskManager.stopLossBad
    rw [h]
    exact Or.inl rfl
  unfold RiskManager.validateTrade
  by_cases h1 : t.value > rm.balance * rm.maxPositionSize <;>
  by_cases h2 : rm.dailyLoss ≥ rm.maxDailyLoss <;>
  by_cases h3 : rm.balance - t.value < rm.balance * rm.reserveFund <;>
  by_cases h5 : rm.openPositions.length ≥ 5 <;>
  simp [h1, h2, h3, hbad, h5]

/-- Witness for `stopLoss_zero_rejected` at the concrete trade `tradeSL0`. -/
theorem stopLoss_zero_rejected_witness :
    tradeSL0.stopLoss = some 0 ∧
    "Stop loss not set or too high" ∈ (rm0.validateTrade tradeSL0).errors ∧
    (rm0.validateTrade tradeSL0).valid = false := by
  have H := stopLoss_zero_rejected rm0 tradeSL0 rfl
  exact ⟨rfl, H.1, H.2⟩
